import Mathlib

/-!
Shallow embedding of the TSLA dashboard repository
(src/app.py, src/data_processor.py, src/chatbot.py).

Modelling conventions:
* Python floats are modelled as exact rationals (ℚ); the float literals
  `0.99` and `1.01` become `99/100` and `101/100`.
* `timestamp` cells (parsed by `pd.to_datetime`) are modelled as an `Int`
  ordinal: only their ordering and identity matter to the claims.
* A pandas cell of the `Support`/`Resistance` columns is either missing
  (`NaN`) or a text; `Cell` captures that.  `eval` / `ast.literal_eval`
  applied to such a cell is modelled by `pyLiteralEval`, a parser for the
  numeric-literal sublanguage those cells live in (a bare number or a
  bracketed comma-separated list of numbers); any other text raises, which
  the model renders as `none`.  Whitespace between tokens is ignored, as
  Python's tokenizer does.
* A raised exception is rendered as `Except.error` / `Option.none`;
  functions whose Lean codomain is a plain type cannot raise.
* The `direction` cell is `Option String` (`none` = NaN/missing; in pandas
  `NaN == "LONG"` is false, matching `none ≠ some "LONG"`).
-/

/-- A Python value that an evaluated `Support`/`Resistance` cell can take:
either a bare number or a list of numbers. -/
inductive PyVal where
  | num (q : ℚ)
  | list (qs : List ℚ)
deriving DecidableEq, Repr

/-- A raw cell of the `Support`/`Resistance` CSV columns: missing (`NaN`)
or a text. -/
inductive Cell where
  | missing
  | text (s : String)
deriving DecidableEq, Repr

/-- Characters of the text, spaces removed (Python's tokenizer skips
spaces between tokens; `process_list_string` additionally strips them
explicitly via `x.replace(' ', '')`). -/
def stripSpaces (cs : List Char) : List Char :=
  cs.filter (fun c => c ≠ ' ')

/-- Longest leading run of decimal digits, plus the rest. -/
def takeDigits : List Char → List Char × List Char
  | [] => ([], [])
  | c :: cs =>
    if c.isDigit then
      let p := takeDigits cs
      (c :: p.1, p.2)
    else ([], c :: cs)

/-- Value of a digit string, most significant first. -/
def digitsToNat (ds : List Char) : ℕ :=
  ds.foldl (fun acc c => 10 * acc + (c.toNat - 48)) 0

/-- Parse an unsigned decimal literal (`123` or `123.45`) at the head of
the input; returns its value and the rest. -/
def parseUnsigned (cs : List Char) : Option (ℚ × List Char) :=
  let p := takeDigits cs
  if p.1 = [] then none
  else
    match p.2 with
    | '.' :: rest2 =>
      let q := takeDigits rest2
      if q.1 = [] then none
      else some ((digitsToNat p.1 : ℚ) + (digitsToNat q.1 : ℚ) / (10 : ℚ) ^ q.1.length, q.2)
    | rest => some ((digitsToNat p.1 : ℚ), rest)

/-- Parse a possibly negated decimal literal at the head of the input. -/
def parseNumber (cs : List Char) : Option (ℚ × List Char) :=
  match cs with
  | '-' :: rest => (parseUnsigned rest).map (fun p => (-p.1, p.2))
  | _ => parseUnsigned cs

/-- Parse one or more comma-separated numbers (fuelled recursion; fuel
bounded by the input length suffices since each step consumes input). -/
def parseItemsAux : ℕ → List Char → Option (List ℚ × List Char)
  | 0, _ => none
  | fuel + 1, cs =>
    match parseNumber cs with
    | none => none
    | some (q, rest) =>
      match rest with
      | ',' :: rest2 =>
        match parseItemsAux fuel rest2 with
        | none => none
        | some (qs, rest3) => some (q :: qs, rest3)
      | _ => some ([q], rest)

/-- Models `eval` / `ast.literal_eval` on a `Support`/`Resistance` cell
text: accepts a bracketed (possibly empty) comma-separated list of decimal
numbers, or a bare number; anything else raises (`none`).  Spaces between
tokens are ignored. -/
def pyLiteralEval (s : String) : Option PyVal :=
  match stripSpaces s.data with
  | '[' :: rest =>
    match rest with
    | [']'] => some (PyVal.list [])
    | _ =>
      match parseItemsAux (rest.length + 1) rest with
      | some (qs, [']']) => some (PyVal.list qs)
      | _ => none
  | other =>
    match parseNumber other with
    | some (q, []) => some (PyVal.num q)
    | _ => none

/-- `data_processor.load_tsla_data`'s inner `process_list_string`:
missing cells and the exact text `"[]"` give `[]`; otherwise spaces are
removed and the text is fed to `ast.literal_eval`, any parse failure being
swallowed into `[]`.  (`x.replace(' ', '')` is subsumed by the
space-insensitivity of `pyLiteralEval`.)  Total: it never raises. -/
def process_list_string (c : Cell) : PyVal :=
  match c with
  | Cell.missing => PyVal.list []
  | Cell.text s =>
    if s = "[]" then PyVal.list []
    else
      match pyLiteralEval s with
      | some v => v
      | none => PyVal.list []

/-- `chatbot.TSLChatbot.load_data`'s per-cell parse
`df['Support'].apply(eval)`: a missing cell is a float `NaN`, and
`eval(nan)` raises `TypeError`; a text cell is fed to `eval`, which raises
on anything outside the literal sublanguage.  The surrounding
`try/except` in `load_data` prints and re-raises, so the error escapes. -/
def chatbotParseCell (c : Cell) : Except String PyVal :=
  match c with
  | Cell.missing => Except.error "TypeError"
  | Cell.text s =>
    match pyLiteralEval s with
    | some v => Except.ok v
    | none => Except.error "SyntaxError"

/-- A loaded table row (one observation).  `open` is a Lean keyword, hence
the field name `open_`.  `support`/`resistance` hold the evaluated cell
value, which is a `PyVal` because `eval` can produce a non-list. -/
structure Row where
  timestamp : Int
  open_ : ℚ
  high : ℚ
  low : ℚ
  close : ℚ
  volume : Int
  direction : Option String
  support : PyVal
  resistance : PyVal
deriving DecidableEq, Repr

/-- A raw CSV row before the `Support`/`Resistance` cells are evaluated
(the other columns, already parsed, are carried through unchanged). -/
structure RawRow where
  timestamp : Int
  open_ : ℚ
  high : ℚ
  low : ℚ
  close : ℚ
  volume : Int
  direction : Option String
  supportCell : Cell
  resistanceCell : Cell
deriving DecidableEq, Repr

/-- Evaluate one raw row's `Support` and `Resistance` cells the way
`TSLChatbot.load_data` does (`apply(eval)`); the first failing cell
aborts the whole load. -/
def chatbotLoadRow (r : RawRow) : Except String Row :=
  match chatbotParseCell r.supportCell with
  | Except.error e => Except.error e
  | Except.ok s =>
    match chatbotParseCell r.resistanceCell with
    | Except.error e => Except.error e
    | Except.ok t =>
      Except.ok ⟨r.timestamp, r.open_, r.high, r.low, r.close, r.volume, r.direction, s, t⟩

/-- `TSLChatbot.load_data`: reads the CSV, converts `timestamp`
(modelled as already ordinal), applies `eval` to the `Support` and
`Resistance` columns.  It performs NO sort: row order is the file order.
(pandas applies `eval` column-wise; the model applies it row-wise — in
both, the first malformed cell makes the load raise.) -/
def chatbot_load_data : List RawRow → Except String (List Row)
  | [] => Except.ok []
  | r :: rest =>
    match chatbotLoadRow r with
    | Except.error e => Except.error e
    | Except.ok row =>
      match chatbot_load_data rest with
      | Except.error e => Except.error e
      | Except.ok rows => Except.ok (row :: rows)

/-- Evaluate one raw row's cells the way `load_tsla_data` does, with the
fault-tolerant `process_list_string`. -/
def processRow (r : RawRow) : Row :=
  ⟨r.timestamp, r.open_, r.high, r.low, r.close, r.volume, r.direction,
    process_list_string r.supportCell, process_list_string r.resistanceCell⟩

/-- Insert a row into a list sorted by ascending timestamp. -/
def insertByDate (r : Row) : List Row → List Row
  | [] => [r]
  | s :: rest =>
    if r.timestamp ≤ s.timestamp then r :: s :: rest
    else s :: insertByDate r rest

/-- Sorting step of `load_tsla_data` (`df.sort_values('Date')`): pandas
produces some ascending ordering by the `Date` column; the source does not
pin the tie order (the default sort kind is quicksort), so the model
commits only to an insertion sort and the theorems assert sortedness, not
a particular tie order. -/
def sortByDate : List Row → List Row
  | [] => []
  | r :: rest => insertByDate r (sortByDate rest)

/-- `data_processor.load_tsla_data`: parse cells via
`process_list_string`, then sort ascending by the parsed date.  (The
renamed OHLCV columns and the derived `Support_Lower/Upper`,
`Resistance_Lower/Upper` columns carry no information beyond the fields
kept here and are omitted.) -/
def load_tsla_data (rows : List RawRow) : List Row :=
  sortByDate (rows.map processRow)

/-- Ascending (non-decreasing) timestamp order, as a decidable check. -/
def sortedByDate : List Row → Bool
  | [] => true
  | [_] => true
  | a :: b :: rest => a.timestamp ≤ b.timestamp && sortedByDate (b :: rest)

/-- Python's `min` over a non-empty list (arbitrary default on `[]`,
which the code never hits: `min` is only applied under a
non-emptiness guard). -/
def pyMin : List ℚ → ℚ
  | [] => 0
  | [a] => a
  | a :: b :: rest => min a (pyMin (b :: rest))

/-- Python's `max` over a non-empty list (arbitrary default on `[]`). -/
def pyMax : List ℚ → ℚ
  | [] => 0
  | [a] => a
  | a :: b :: rest => max a (pyMax (b :: rest))

/-- `isinstance(v, list) and len(v) > 0` — the per-row guard of the band
loops in `app.create_candlestick_animation`. -/
def isNonemptyPyList : PyVal → Bool
  | PyVal.list (_ :: _) => true
  | _ => false

/-- The elements of a `PyVal` known to be a list (`[]` otherwise). -/
def pyListElems : PyVal → List ℚ
  | PyVal.num _ => []
  | PyVal.list qs => qs

/-- One scatter trace's data: x (timestamps) and y (prices). -/
structure Scatter where
  x : List Int
  y : List ℚ
deriving DecidableEq, Repr

/-- The band slot of a frame: either the filled polygon trace
(`go.Scatter(x=.., y=.., fill='toself', ...)`) or the unfilled empty
placeholder `go.Scatter(x=[], y=[], mode='none')` the `else` branch
emits, which draws no band. -/
inductive BandTrace where
  | band (x : List Int) (y : List ℚ)
  | emptyTrace
deriving DecidableEq, Repr

/-- The support-band loop of `app.create_candlestick_animation` (lines
89–97): walk the prefix, and for each row passing the
`isinstance(.., list) and len > 0` guard append its timestamp,
`min(Support)` and `max(Support)`.  Returns `(xs_sup, ys_sup_lower,
ys_sup_upper)` in iteration order. -/
def supportBandPoints : List Row → List Int × List ℚ × List ℚ
  | [] => ([], [], [])
  | r :: rest =>
    let p := supportBandPoints rest
    if isNonemptyPyList r.support then
      (r.timestamp :: p.1, pyMin (pyListElems r.support) :: p.2.1,
        pyMax (pyListElems r.support) :: p.2.2)
    else p

/-- Lines 98–109: if any support point was collected, emit the polygon
`x = xs + reversed(xs)`, `y = ys_upper + reversed(ys_lower)`; otherwise
emit the empty placeholder scatter. -/
def buildSupportBand (s : List Row) : BandTrace :=
  let p := supportBandPoints s
  if p.1 = [] then BandTrace.emptyTrace
  else BandTrace.band (p.1 ++ p.1.reverse) (p.2.2 ++ p.2.1.reverse)

/-- The resistance-band loop (lines 111–119), identical in structure to
the support one but reading the `Resistance` column. -/
def resistanceBandPoints : List Row → List Int × List ℚ × List ℚ
  | [] => ([], [], [])
  | r :: rest =>
    let p := resistanceBandPoints rest
    if isNonemptyPyList r.resistance then
      (r.timestamp :: p.1, pyMin (pyListElems r.resistance) :: p.2.1,
        pyMax (pyListElems r.resistance) :: p.2.2)
    else p

/-- Lines 120–131: resistance-band polygon or empty placeholder. -/
def buildResistanceBand (s : List Row) : BandTrace :=
  let p := resistanceBandPoints s
  if p.1 = [] then BandTrace.emptyTrace
  else BandTrace.band (p.1 ++ p.1.reverse) (p.2.2 ++ p.2.1.reverse)

/-- The marker loop (lines 133–147): rows with `direction == 'LONG'`
contribute `(timestamp, low*0.99)` to the LONG lists, `'SHORT'` rows
`(timestamp, high*1.01)` to the SHORT lists, everything else (including
missing direction) `(timestamp, close)` to the neutral lists.  Returns
`((longs_x, longs_y), (shorts_x, shorts_y), (none_x, none_y))`. -/
def directionMarkerPoints :
    List Row → (List Int × List ℚ) × (List Int × List ℚ) × (List Int × List ℚ)
  | [] => (([], []), ([], []), ([], []))
  | r :: rest =>
    let p := directionMarkerPoints rest
    if r.direction = some "LONG" then
      ((r.timestamp :: p.1.1, r.low * (99 / 100) :: p.1.2), p.2.1, p.2.2)
    else if r.direction = some "SHORT" then
      (p.1, (r.timestamp :: p.2.1.1, r.high * (101 / 100) :: p.2.1.2), p.2.2)
    else
      (p.1, p.2.1, (r.timestamp :: p.2.2.1, r.close :: p.2.2.2))

/-- One animation frame's data (`go.Frame(data=[candle, sup_band,
res_band, long_marker, short_marker, none_marker])`). -/
structure Frame where
  candle_x : List Int
  candle_open : List ℚ
  candle_high : List ℚ
  candle_low : List ℚ
  candle_close : List ℚ
  sup_band : BandTrace
  res_band : BandTrace
  long_marker : Scatter
  short_marker : Scatter
  none_marker : Scatter
deriving DecidableEq, Repr

/-- The body of the frame loop at a given cutoff `i`: slice the first `i`
rows (`df.iloc[:i]`) and build the candlestick arrays, the two bands and
the three marker groups from that slice. -/
def buildFrame (df : List Row) (i : ℕ) : Frame :=
  let s := df.take i
  let m := directionMarkerPoints s
  { candle_x := s.map (fun r => r.timestamp)
    candle_open := s.map (fun r => r.open_)
    candle_high := s.map (fun r => r.high)
    candle_low := s.map (fun r => r.low)
    candle_close := s.map (fun r => r.close)
    sup_band := buildSupportBand s
    res_band := buildResistanceBand s
    long_marker := ⟨m.1.1, m.1.2⟩
    short_marker := ⟨m.2.1.1, m.2.1.2⟩
    none_marker := ⟨m.2.2.1, m.2.2.2⟩ }

/-- `app.create_candlestick_animation`'s frame loop:
`for i in range(10, len(df) + 1)`, one frame per `i`.  `range(10, n+1)`
is `[10, …, n]`, i.e. `List.range' 10 (n + 1 - 10)` (empty when
`n < 10`).  The static figure layout and the initial empty traces carry
no frame data and are omitted. -/
def create_candlestick_animation (df : List Row) : List Frame :=
  (List.range' 10 (df.length + 1 - 10)).map (fun i => buildFrame df i)

/-- `data_processor.get_animation_frames`: `for i in range(1, len(df)+1)`
emit the records of `df.iloc[:i]` together with the frame duration. -/
def get_animation_frames (df : List Row) (frame_duration : ℕ := 100) :
    List (List Row × ℕ) :=
  (List.range' 1 df.length).map (fun i => (df.take i, frame_duration))

/-- `data_processor.calculate_direction_markers`: one `(position, color,
symbol)` per row, by the same `direction` three-way branch as the marker
loop (reading the renamed `Low`/`High`/`Close` columns, whose values are
the original `low`/`high`/`close`). -/
def calculate_direction_markers : List Row → List ℚ × List String × List String
  | [] => ([], [], [])
  | r :: rest =>
    let p := calculate_direction_markers rest
    if r.direction = some "LONG" then
      (r.low * (99 / 100) :: p.1, "green" :: p.2.1, "triangle-up" :: p.2.2)
    else if r.direction = some "SHORT" then
      (r.high * (101 / 100) :: p.1, "red" :: p.2.1, "triangle-down" :: p.2.2)
    else
      (r.close :: p.1, "yellow" :: p.2.1, "circle" :: p.2.2)

/-- Does `pat` occur as a contiguous prefix of `s`? -/
def charsHavePrefix : List Char → List Char → Bool
  | [], _ => true
  | _ :: _, [] => false
  | p :: ps, c :: cs => p = c && charsHavePrefix ps cs

/-- Python's substring containment `pat in s` over character lists. -/
def charsContain : List Char → List Char → Bool
  | pat, [] => charsHavePrefix pat []
  | pat, c :: cs => charsHavePrefix pat (c :: cs) || charsContain pat cs

/-- `"429" in str(e)` from `TSLChatbot.generate_response`. -/
def mentions429 (e : String) : Bool :=
  charsContain ['4', '2', '9'] e.data

/-- The fixed rate-limit advisory string. -/
def rate_limit_message : String :=
  "Rate limit exceeded. Please wait a minute before trying again."

/-- The prompt template of `TSLChatbot.generate_response` (the CSV dump
of the table and the question spliced into the fixed instructions). -/
def build_prompt (csv_str user_query : String) : String :=
  "I have loaded the TSLA stock data. The data includes timestamp, trading direction (SHORT/LONG), support and resistance levels, OHLC prices, and volume. \nHere is the data in CSV format:\n"
    ++ csv_str
    ++ "\n\nPlease analyze this data and answer the following question:\n"
    ++ user_query
    ++ "\n\nPlease provide a detailed analysis with specific data points from the CSV. Include relevant statistics, trends, and insights."

/-- `TSLChatbot.generate_response`: build the prompt, call the remote
model (an external collaborator, passed as a function from prompt to
either a reply or a raised error), and return a string in every case:
a reply verbatim, the fixed advisory if the error text mentions "429",
or `"Error: " ++ detail` otherwise.  The `time.sleep(1)` rate limiting
has no effect on the returned value and is not modelled. -/
def generate_response (call : String → Except String String)
    (csv_str user_query : String) : String :=
  match call (build_prompt csv_str user_query) with
  | Except.ok t => t
  | Except.error e =>
    if mentions429 e then rate_limit_message else "Error: " ++ e

/-- `row['direction'] == 'LONG'` (false on a missing direction). -/
def isLongRow (r : Row) : Bool :=
  decide (r.direction = some "LONG")

/-- `row['direction'] == 'SHORT'`. -/
def isShortRow (r : Row) : Bool :=
  decide (r.direction = some "SHORT")

/-- The `else` branch of the marker loops: neither LONG nor SHORT
(including missing/null direction). -/
def isNeutralRow (r : Row) : Bool :=
  !isLongRow r && !isShortRow r

/-- The rows of a slice passing the support-band guard. -/
def supportRows (s : List Row) : List Row :=
  s.filter (fun r => isNonemptyPyList r.support)

/-- The rows of a slice passing the resistance-band guard. -/
def resistanceRows (s : List Row) : List Row :=
  s.filter (fun r => isNonemptyPyList r.resistance)

/-- Marker y-position of one row in `calculate_direction_markers`. -/
def markerPosition (r : Row) : ℚ :=
  if r.direction = some "LONG" then r.low * (99 / 100)
  else if r.direction = some "SHORT" then r.high * (101 / 100)
  else r.close

/-- Marker color of one row in `calculate_direction_markers`. -/
def markerColor (r : Row) : String :=
  if r.direction = some "LONG" then "green"
  else if r.direction = some "SHORT" then "red"
  else "yellow"

/-- Marker symbol of one row in `calculate_direction_markers`. -/
def markerSymbol (r : Row) : String :=
  if r.direction = some "LONG" then "triangle-up"
  else if r.direction = some "SHORT" then "triangle-down"
  else "circle"

/-- Convenience constructor for sample rows (volume fixed at 100, list
cells already evaluated). -/
def mkRowS (t : Int) (o h l c : ℚ) (d : Option String) (sup res : List ℚ) : Row :=
  ⟨t, o, h, l, c, 100, d, PyVal.list sup, PyVal.list res⟩

/-- A 12-row sample table exercising all direction values and both empty
and non-empty support/resistance lists. -/
def table12 : List Row :=
  [mkRowS 1 10 12 9 11 (some "LONG") [5, 7] [20],
   mkRowS 2 11 13 10 12 (some "SHORT") [] [],
   mkRowS 3 12 14 11 13 none [6] [],
   mkRowS 4 13 15 12 14 (some "LONG") [] [21, 23],
   mkRowS 5 14 16 13 15 none [7, 9] [],
   mkRowS 6 15 17 14 16 (some "SHORT") [] [],
   mkRowS 7 16 18 15 17 none [8] [22],
   mkRowS 8 17 19 16 18 (some "LONG") [] [],
   mkRowS 9 18 20 17 19 none [9, 11] [],
   mkRowS 10 19 21 18 20 (some "SHORT") [] [],
   mkRowS 11 20 22 19 21 none [10] [24],
   mkRowS 12 21 23 20 22 (some "LONG") [] []]

/-- A non-empty 5-row table (shorter than the animation's start index
10). -/
def table5 : List Row :=
  [mkRowS 1 10 12 9 11 (some "LONG") [5, 7] [20],
   mkRowS 2 11 13 10 12 (some "SHORT") [] [],
   mkRowS 3 12 14 11 13 none [6] [],
   mkRowS 4 13 15 12 14 (some "LONG") [] [21, 23],
   mkRowS 5 14 16 13 15 none [7, 9] []]

/-- A 3-row slice whose support lists are non-empty at rows 1 and 3. -/
def sliceBand : List Row :=
  [mkRowS 1 10 12 9 11 none [5, 7] [],
   mkRowS 2 11 13 10 12 none [] [20],
   mkRowS 3 12 14 11 13 none [6] [21, 23]]

/-- Two raw rows in descending timestamp order, with well-formed `"[]"`
list cells. -/
def rawPair : List RawRow :=
  [⟨2, 1, 2, 0, 1, 10, none, Cell.text "[]", Cell.text "[]"⟩,
   ⟨1, 1, 2, 0, 1, 10, none, Cell.text "[]", Cell.text "[]"⟩]

/-- What `TSLChatbot.load_data` produces from `rawPair` (still in file
order, timestamps descending). -/
def chatPairRows : List Row :=
  [⟨2, 1, 2, 0, 1, 10, none, PyVal.list [], PyVal.list []⟩,
   ⟨1, 1, 2, 0, 1, 10, none, PyVal.list [], PyVal.list []⟩]

/-- C1's property at `(df, i)`: the candlestick arrays of the frame at
cutoff `i` are the first `i` rows' timestamp/OHLC values in table order,
the prefix has exactly `i` rows, the frame is among the produced
animation frames, and entry `j` of each array is row `j`'s value. -/
def CandlePrefixSpec (df : List Row) (i : ℕ) : Prop :=
  (buildFrame df i).candle_x = (df.take i).map (fun r => r.timestamp) ∧
  (buildFrame df i).candle_open = (df.take i).map (fun r => r.open_) ∧
  (buildFrame df i).candle_high = (df.take i).map (fun r => r.high) ∧
  (buildFrame df i).candle_low = (df.take i).map (fun r => r.low) ∧
  (buildFrame df i).candle_close = (df.take i).map (fun r => r.close) ∧
  (df.take i).length = i ∧
  buildFrame df i ∈ create_candlestick_animation df ∧
  (∀ (j : ℕ) (r : Row), j < i → df[j]? = some r →
    ((buildFrame df i).candle_x)[j]? = some r.timestamp ∧
    ((buildFrame df i).candle_open)[j]? = some r.open_ ∧
    ((buildFrame df i).candle_high)[j]? = some r.high ∧
    ((buildFrame df i).candle_low)[j]? = some r.low ∧
    ((buildFrame df i).candle_close)[j]? = some r.close)

/-- C2's property at a slice `s`: whenever a band polygon is emitted for
a field, its x-sequence is `xs ++ reverse xs` over the timestamps of the
rows with a non-empty list for that field, its y-sequence is the
per-row maxima forward followed by the per-row minima reversed, and the
two sequences have equal length. -/
def BandPolygonSpec (s : List Row) : Prop :=
  (∀ X Y, buildSupportBand s = BandTrace.band X Y →
    X = (supportRows s).map (fun r => r.timestamp)
        ++ ((supportRows s).map (fun r => r.timestamp)).reverse ∧
    Y = (supportRows s).map (fun r => pyMax (pyListElems r.support))
        ++ ((supportRows s).map (fun r => pyMin (pyListElems r.support))).reverse ∧
    X.length = Y.length) ∧
  (∀ X Y, buildResistanceBand s = BandTrace.band X Y →
    X = (resistanceRows s).map (fun r => r.timestamp)
        ++ ((resistanceRows s).map (fun r => r.timestamp)).reverse ∧
    Y = (resistanceRows s).map (fun r => pyMax (pyListElems r.resistance))
        ++ ((resistanceRows s).map (fun r => pyMin (pyListElems r.resistance))).reverse ∧
    X.length = Y.length)

/-- C3's property at a slice `s`: the three marker groups are exactly the
LONG rows at `(timestamp, low*0.99)`, the SHORT rows at
`(timestamp, high*1.01)` and the remaining rows at `(timestamp, close)`,
in slice order, and the direction predicates classify every row into
exactly one of the three groups. -/
def MarkerPartitionSpec (s : List Row) : Prop :=
  (directionMarkerPoints s).1.1 = (s.filter isLongRow).map (fun r => r.timestamp) ∧
  (directionMarkerPoints s).1.2 = (s.filter isLongRow).map (fun r => r.low * (99 / 100)) ∧
  (directionMarkerPoints s).2.1.1 = (s.filter isShortRow).map (fun r => r.timestamp) ∧
  (directionMarkerPoints s).2.1.2 = (s.filter isShortRow).map (fun r => r.high * (101 / 100)) ∧
  (directionMarkerPoints s).2.2.1 = (s.filter isNeutralRow).map (fun r => r.timestamp) ∧
  (directionMarkerPoints s).2.2.2 = (s.filter isNeutralRow).map (fun r => r.close) ∧
  (s.filter isLongRow).length + (s.filter isShortRow).length
    + (s.filter isNeutralRow).length = s.length ∧
  (∀ r ∈ s,
    (isLongRow r = true ∧ isShortRow r = false ∧ isNeutralRow r = false) ∨
    (isLongRow r = false ∧ isShortRow r = true ∧ isNeutralRow r = false) ∨
    (isLongRow r = false ∧ isShortRow r = false ∧ isNeutralRow r = true))

/-- C4 (amended) at a text `s`: `process_list_string` never raises —
missing cells, the text `"[]"` and unparsable texts all yield the empty
list, and a text that parses yields its parsed value. -/
def CellParseSpec (s : String) : Prop :=
  process_list_string Cell.missing = PyVal.list [] ∧
  process_list_string (Cell.text "[]") = PyVal.list [] ∧
  (pyLiteralEval s = none → process_list_string (Cell.text s) = PyVal.list []) ∧
  (∀ v, pyLiteralEval s = some v → s ≠ "[]" → process_list_string (Cell.text s) = v)

/-- C5 (amended) at a table `df`: `create_candlestick_animation` emits
one frame per cutoff `i = 10, 11, …, N` (so none when `N < 10`), the
`j`-th frame being the frame at cutoff `10 + j`; `get_animation_frames`
emits one frame per cutoff `i = 1, …, N`. -/
def FrameSequencingSpec (df : List Row) : Prop :=
  (df.length < 10 → create_candlestick_animation df = []) ∧
  (10 ≤ df.length → (create_candlestick_animation df).length = df.length - 9) ∧
  (∀ (j : ℕ), j < (create_candlestick_animation df).length →
    (create_candlestick_animation df)[j]? = some (buildFrame df (10 + j))) ∧
  (get_animation_frames df).length = df.length ∧
  (∀ (j : ℕ), j < df.length → (get_animation_frames df)[j]? = some (df.take (1 + j), 100))

/-- C6's property at a remote-call behaviour and inputs: the responder
returns the reply verbatim on success; on a raised error whose text
mentions "429" it returns exactly the fixed advisory; on any other error
it returns `"Error: "` followed by the raw detail.  (Its Lean codomain
being `String`, not `Except`, renders "no exception ever escapes".) -/
def ResponderSpec (call : String → Except String String) (csv q : String) : Prop :=
  (∀ t, call (build_prompt csv q) = Except.ok t → generate_response call csv q = t) ∧
  (∀ e, call (build_prompt csv q) = Except.error e → mentions429 e = true →
    generate_response call csv q = rate_limit_message) ∧
  (∀ e, call (build_prompt csv q) = Except.error e → mentions429 e = false →
    generate_response call csv q = "Error: " ++ e)

/-- C7 (amended) at a raw-row list: `load_tsla_data` returns rows in
ascending timestamp order, while `TSLChatbot.load_data` performs no sort
— whenever it succeeds, the output timestamps are the input timestamps
in file order. -/
def LoaderOrderSpec (raws : List RawRow) : Prop :=
  sortedByDate (load_tsla_data raws) = true ∧
  (∀ rows, chatbot_load_data raws = Except.ok rows →
    rows.map (fun r => r.timestamp) = raws.map (fun r => r.timestamp))

/-- C8's property at `(df, i)`: for each field, the band slot of the
frame at cutoff `i` is the unfilled placeholder exactly when no row of
the prefix has a non-empty list for that field; otherwise the filled
polygon is present, and its vertices are built from the rows with a
non-empty list only (rows with an empty list contribute no entries). -/
def BandPresenceSpec (df : List Row) (i : ℕ) : Prop :=
  ((buildFrame df i).sup_band = BandTrace.emptyTrace ↔
    ∀ r ∈ df.take i, isNonemptyPyList r.support = false) ∧
  (supportRows (df.take i) ≠ [] →
    (buildFrame df i).sup_band =
      BandTrace.band
        ((supportRows (df.take i)).map (fun r => r.timestamp)
          ++ ((supportRows (df.take i)).map (fun r => r.timestamp)).reverse)
        ((supportRows (df.take i)).map (fun r => pyMax (pyListElems r.support))
          ++ ((supportRows (df.take i)).map (fun r => pyMin (pyListElems r.support))).reverse)) ∧
  ((buildFrame df i).res_band = BandTrace.emptyTrace ↔
    ∀ r ∈ df.take i, isNonemptyPyList r.resistance = false) ∧
  (resistanceRows (df.take i) ≠ [] →
    (buildFrame df i).res_band =
      BandTrace.band
        ((resistanceRows (df.take i)).map (fun r => r.timestamp)
          ++ ((resistanceRows (df.take i)).map (fun r => r.timestamp)).reverse)
        ((resistanceRows (df.take i)).map (fun r => pyMax (pyListElems r.resistance))
          ++ ((resistanceRows (df.take i)).map (fun r => pyMin (pyListElems r.resistance))).reverse))

/-- C10's property at a table `df`: the three outputs of
`calculate_direction_markers` all have one entry per input row, entry
`j` being determined by row `j`'s direction and prices. -/
def MarkersAlignedSpec (df : List Row) : Prop :=
  (calculate_direction_markers df).1.length = df.length ∧
  (calculate_direction_markers df).2.1.length = df.length ∧
  (calculate_direction_markers df).2.2.length = df.length ∧
  (∀ (j : ℕ) (r : Row), df[j]? = some r →
    ((calculate_direction_markers df).1)[j]? = some (markerPosition r) ∧
    ((calculate_direction_markers df).2.1)[j]? = some (markerColor r) ∧
    ((calculate_direction_markers df).2.2)[j]? = some (markerSymbol r))

/-- A remote-call behaviour that always raises a quota error whose text
mentions "429" (the shape of a `google.api_core` rate-limit failure). -/
def failing429Call : String → Except String String :=
  fun _ => Except.error "ResourceExhausted: 429 Quota exceeded for model"

/-! ## Characterization lemmas (shared helpers) -/

theorem supportBandPoints_eq (s : List Row) :
    supportBandPoints s =
      ((supportRows s).map (fun r => r.timestamp),
       (supportRows s).map (fun r => pyMin (pyListElems r.support)),
       (supportRows s).map (fun r => pyMax (pyListElems r.support))) := by
  induction s with
  | nil => rfl
  | cons r rest ih =>
    by_cases h : isNonemptyPyList r.support = true
    · simp [supportBandPoints, supportRows, List.filter_cons, h, ih]
    · simp only [Bool.not_eq_true] at h
      simp [supportBandPoints, supportRows, List.filter_cons, h, ih]

theorem resistanceBandPoints_eq (s : List Row) :
    resistanceBandPoints s =
      ((resistanceRows s).map (fun r => r.timestamp),
       (resistanceRows s).map (fun r => pyMin (pyListElems r.resistance)),
       (resistanceRows s).map (fun r => pyMax (pyListElems r.resistance))) := by
  induction s with
  | nil => rfl
  | cons r rest ih =>
    by_cases h : isNonemptyPyList r.resistance = true
    · simp [resistanceBandPoints, resistanceRows, List.filter_cons, h, ih]
    · simp only [Bool.not_eq_true] at h
      simp [resistanceBandPoints, resistanceRows, List.filter_cons, h, ih]

theorem directionMarkerPoints_eq (s : List Row) :
    directionMarkerPoints s =
      (((s.filter isLongRow).map (fun r => r.timestamp),
        (s.filter isLongRow).map (fun r => r.low * (99 / 100))),
       ((s.filter isShortRow).map (fun r => r.timestamp),
        (s.filter isShortRow).map (fun r => r.high * (101 / 100))),
       ((s.filter isNeutralRow).map (fun r => r.timestamp),
        (s.filter isNeutralRow).map (fun r => r.close))) := by
  induction s with
  | nil => rfl
  | cons r rest ih =>
    by_cases h1 : r.direction = some "LONG"
    · simp [directionMarkerPoints, List.filter_cons, h1, ih,
        isLongRow, isShortRow, isNeutralRow]
    · by_cases h2 : r.direction = some "SHORT"
      · simp [directionMarkerPoints, List.filter_cons, h1, h2, ih,
          isLongRow, isShortRow, isNeutralRow]
      · simp [directionMarkerPoints, List.filter_cons, h1, h2, ih,
          isLongRow, isShortRow, isNeutralRow]

theorem calculate_direction_markers_eq (df : List Row) :
    calculate_direction_markers df =
      (df.map markerPosition, df.map markerColor, df.map markerSymbol) := by
  induction df with
  | nil => rfl
  | cons r rest ih =>
    by_cases h1 : r.direction = some "LONG"
    · simp [calculate_direction_markers, h1, ih,
        markerPosition, markerColor, markerSymbol]
    · by_cases h2 : r.direction = some "SHORT"
      · simp [calculate_direction_markers, h1, h2, ih,
          markerPosition, markerColor, markerSymbol]
      · simp [calculate_direction_markers, h1, h2, ih,
          markerPosition, markerColor, markerSymbol]

/-! ## Claims -/

/-- C1: for every loaded table and every prefix length `i` with
`10 ≤ i ≤ N`, the candlestick component of the frame at cutoff `i`
consists of exactly the first `i` rows' timestamp, open, high, low and
close values, in table order. -/
theorem candlestick_prefix_correct (df : List Row) (i : ℕ)
    (h10 : 10 ≤ i) (hiN : i ≤ df.length) : CandlePrefixSpec df i := by
  refine ⟨rfl, rfl, rfl, rfl, rfl, ?_, ?_, ?_⟩
  · rw [List.length_take]; omega
  · have hmem : i ∈ List.range' 10 (df.length + 1 - 10) := by
      rw [List.mem_range'_1]; omega
    exact List.mem_map.mpr ⟨i, hmem, rfl⟩
  · intro j r hj hr
    have ht : (df.take i)[j]? = df[j]? := List.getElem?_take_of_lt hj
    have htm : ∀ {α : Type} (f : Row → α), ((df.take i).map f)[j]? = some (f r) := by
      intro α f
      rw [List.getElem?_map, ht, hr]
      rfl
    exact ⟨htm _, htm _, htm _, htm _, htm _⟩

theorem candlestick_prefix_correct_witness :
    10 ≤ (10 : ℕ) ∧ 10 ≤ table12.length ∧ CandlePrefixSpec table12 10 :=
  ⟨by decide, by decide, candlestick_prefix_correct table12 10 (by decide) (by decide)⟩

theorem buildSupportBand_eq (s : List Row) :
    buildSupportBand s =
      if (supportRows s).map (fun r => r.timestamp) = [] then BandTrace.emptyTrace
      else BandTrace.band
        ((supportRows s).map (fun r => r.timestamp)
          ++ ((supportRows s).map (fun r => r.timestamp)).reverse)
        ((supportRows s).map (fun r => pyMax (pyListElems r.support))
          ++ ((supportRows s).map (fun r => pyMin (pyListElems r.support))).reverse) := by
  simp only [buildSupportBand, supportBandPoints_eq]

theorem buildResistanceBand_eq (s : List Row) :
    buildResistanceBand s =
      if (resistanceRows s).map (fun r => r.timestamp) = [] then BandTrace.emptyTrace
      else BandTrace.band
        ((resistanceRows s).map (fun r => r.timestamp)
          ++ ((resistanceRows s).map (fun r => r.timestamp)).reverse)
        ((resistanceRows s).map (fun r => pyMax (pyListElems r.resistance))
          ++ ((resistanceRows s).map (fun r => pyMin (pyListElems r.resistance))).reverse) := by
  simp only [buildResistanceBand, resistanceBandPoints_eq]

/-- C2: for every table prefix and each of the support and resistance
fields independently, the emitted band polygon's x-sequence is
`xs ++ reverse xs` over the timestamps of the rows with a non-empty
list, its y-sequence is the per-row maxima forward followed by the
per-row minima reversed, and both sequences have equal length. -/
theorem band_polygon_correct (s : List Row) : BandPolygonSpec s := by
  constructor
  · intro X Y h
    rw [buildSupportBand_eq] at h
    by_cases he : (supportRows s).map (fun r => r.timestamp) = []
    · rw [if_pos he] at h
      exact absurd h (by simp)
    · rw [if_neg he] at h
      injection h with h1 h2
      refine ⟨h1.symm, h2.symm, ?_⟩
      rw [← h1, ← h2]
      simp
  · intro X Y h
    rw [buildResistanceBand_eq] at h
    by_cases he : (resistanceRows s).map (fun r => r.timestamp) = []
    · rw [if_pos he] at h
      exact absurd h (by simp)
    · rw [if_neg he] at h
      injection h with h1 h2
      refine ⟨h1.symm, h2.symm, ?_⟩
      rw [← h1, ← h2]
      simp

theorem band_polygon_correct_witness :
    buildSupportBand sliceBand = BandTrace.band [1, 3, 3, 1] [7, 6, 6, 5] ∧
    ([(1 : Int), 3, 3, 1] = (supportRows sliceBand).map (fun r => r.timestamp)
        ++ ((supportRows sliceBand).map (fun r => r.timestamp)).reverse ∧
      [(7 : ℚ), 6, 6, 5] = (supportRows sliceBand).map (fun r => pyMax (pyListElems r.support))
        ++ ((supportRows sliceBand).map (fun r => pyMin (pyListElems r.support))).reverse ∧
      [(1 : Int), 3, 3, 1].length = [(7 : ℚ), 6, 6, 5].length) :=
  ⟨by decide, (band_polygon_correct sliceBand).1 [1, 3, 3, 1] [7, 6, 6, 5] (by decide)⟩

theorem marker_counts (s : List Row) :
    (s.filter isLongRow).length + (s.filter isShortRow).length
      + (s.filter isNeutralRow).length = s.length := by
  induction s with
  | nil => rfl
  | cons r rest ih =>
    by_cases h1 : r.direction = some "LONG"
    · simp [List.filter_cons, isLongRow, isShortRow, isNeutralRow, h1]
      omega
    · by_cases h2 : r.direction = some "SHORT"
      · simp [List.filter_cons, isLongRow, isShortRow, isNeutralRow, h1, h2]
        omega
      · simp [List.filter_cons, isLongRow, isShortRow, isNeutralRow, h1, h2]
        omega

theorem marker_trichotomy (r : Row) :
    (isLongRow r = true ∧ isShortRow r = false ∧ isNeutralRow r = false) ∨
    (isLongRow r = false ∧ isShortRow r = true ∧ isNeutralRow r = false) ∨
    (isLongRow r = false ∧ isShortRow r = false ∧ isNeutralRow r = true) := by
  by_cases h1 : r.direction = some "LONG"
  · exact Or.inl (by simp [isLongRow, isShortRow, isNeutralRow, h1])
  · by_cases h2 : r.direction = some "SHORT"
    · exact Or.inr (Or.inl (by simp [isLongRow, isShortRow, isNeutralRow, h1, h2]))
    · exact Or.inr (Or.inr (by simp [isLongRow, isShortRow, isNeutralRow, h1, h2]))

/-- C3: the marker construction partitions the prefix rows into three
groups by `direction`: LONG rows at `(timestamp, low*0.99)`, SHORT rows
at `(timestamp, high*1.01)`, every other row (including missing
direction) at `(timestamp, close)`; each row lands in exactly one
group. -/
theorem marker_partition_correct (s : List Row) : MarkerPartitionSpec s := by
  have hd := directionMarkerPoints_eq s
  exact ⟨by rw [hd], by rw [hd], by rw [hd], by rw [hd], by rw [hd], by rw [hd],
    marker_counts s, fun r _ => marker_trichotomy r⟩

theorem marker_partition_correct_witness :
    MarkerPartitionSpec table5 ∧
    (directionMarkerPoints table5).1.1 = [1, 4] ∧
    (directionMarkerPoints table5).2.1.1 = [2] ∧
    (directionMarkerPoints table5).2.2.1 = [3, 5] :=
  ⟨marker_partition_correct table5, by decide, by decide, by decide⟩

/-- C8: for each field, the frame's band slot is the unfilled
placeholder exactly when no prefix row has a non-empty list for that
field; otherwise the filled polygon is present and built from the rows
with a non-empty list only. -/
theorem band_presence_correct (df : List Row) (i : ℕ) : BandPresenceSpec df i := by
  have hs : (buildFrame df i).sup_band = buildSupportBand (df.take i) := rfl
  have hr : (buildFrame df i).res_band = buildResistanceBand (df.take i) := rfl
  refine ⟨?_, ?_, ?_, ?_⟩
  · rw [hs, buildSupportBand_eq]
    constructor
    · intro h r hrr
      by_cases he : (supportRows (df.take i)).map (fun r => r.timestamp) = []
      · have hnil : supportRows (df.take i) = [] := List.map_eq_nil_iff.mp he
        have := List.filter_eq_nil_iff.mp hnil r hrr
        simpa using this
      · rw [if_neg he] at h
        exact absurd h (by simp)
    · intro hall
      have hnil : supportRows (df.take i) = [] :=
        List.filter_eq_nil_iff.mpr (fun r hrr => by simp [hall r hrr])
      rw [if_pos (by simp [hnil])]
  · intro hne
    rw [hs, buildSupportBand_eq, if_neg (by simpa using hne)]
  · rw [hr, buildResistanceBand_eq]
    constructor
    · intro h r hrr
      by_cases he : (resistanceRows (df.take i)).map (fun r => r.timestamp) = []
      · have hnil : resistanceRows (df.take i) = [] := List.map_eq_nil_iff.mp he
        have := List.filter_eq_nil_iff.mp hnil r hrr
        simpa using this
      · rw [if_neg he] at h
        exact absurd h (by simp)
    · intro hall
      have hnil : resistanceRows (df.take i) = [] :=
        List.filter_eq_nil_iff.mpr (fun r hrr => by simp [hall r hrr])
      rw [if_pos (by simp [hnil])]
  · intro hne
    rw [hr, buildResistanceBand_eq, if_neg (by simpa using hne)]

theorem band_presence_correct_witness :
    BandPresenceSpec table12 10 ∧
    supportRows (table12.take 10) ≠ [] ∧
    (buildFrame sliceBand 1).res_band = BandTrace.emptyTrace :=
  ⟨band_presence_correct table12 10, by decide, by decide⟩

/-- C9: the frame builder is a pure function of the first `i` rows —
two tables with the same `i`-prefix yield the same frame, and the frame
at cutoff `i` equals the frame built from the prefix alone (no hidden
state, no dependence on later rows). -/
theorem frame_builder_pure (df1 df2 : List Row) (i : ℕ)
    (h : df1.take i = df2.take i) :
    buildFrame df1 i = buildFrame df2 i ∧
    buildFrame df1 i = buildFrame (df1.take i) i := by
  constructor
  · unfold buildFrame
    rw [h]
  · unfold buildFrame
    rw [List.take_take]
    simp

theorem frame_builder_pure_witness :
    table12.take 10 = (table12.take 10).take 10 ∧
    (buildFrame table12 10 = buildFrame (table12.take 10) 10 ∧
      buildFrame table12 10 = buildFrame (table12.take 10) 10) :=
  ⟨by decide, frame_builder_pure table12 (table12.take 10) 10 (by decide)⟩

/-- C10: `calculate_direction_markers` returns three lists of the same
length as the input, entry `j` derived from row `j` (position by the
direction three-way branch, color and symbol likewise). -/
theorem markers_aligned (df : List Row) : MarkersAlignedSpec df := by
  have hc := calculate_direction_markers_eq df
  refine ⟨?_, ?_, ?_, ?_⟩
  · rw [hc]; simp
  · rw [hc]; simp
  · rw [hc]; simp
  · intro j r hrj
    rw [hc]
    exact ⟨by simp [List.getElem?_map, hrj], by simp [List.getElem?_map, hrj],
      by simp [List.getElem?_map, hrj]⟩

theorem markers_aligned_witness :
    MarkersAlignedSpec table5 ∧
    table5[2]? = some (mkRowS 3 12 14 11 13 none [6] []) ∧
    ((calculate_direction_markers table5).1)[2]? = some 13 :=
  ⟨markers_aligned table5, by decide, by decide⟩

/-- C4 (amended): `process_list_string` never raises — missing cells,
`"[]"` and unparsable texts yield the empty list, and parsable texts
yield their parsed value (which for a bare-number cell is not a list). -/
theorem cell_parse_tolerant (s : String) : CellParseSpec s := by
  refine ⟨rfl, rfl, ?_, ?_⟩
  · intro h
    by_cases he : s = "[]"
    · simp [process_list_string, he]
    · simp [process_list_string, he, h]
  · intro v hv hne
    simp [process_list_string, hne, hv]

theorem cell_parse_tolerant_witness :
    pyLiteralEval "not a list" = none ∧
    process_list_string (Cell.text "not a list") = PyVal.list [] :=
  ⟨by decide, (cell_parse_tolerant "not a list").2.2.1 (by decide)⟩

/-- C4 counterexample to the claim as stated: in
`TSLChatbot.load_data`, the `eval`-based cell parse raises on an empty
text cell and on a missing cell (so load-time parsing can raise), and
even the tolerant `process_list_string` returns a non-sequence for a
bare-number cell. -/
theorem cell_parse_counterexample :
    chatbotParseCell (Cell.text "") = Except.error "SyntaxError" ∧
    chatbotParseCell Cell.missing = Except.error "TypeError" ∧
    process_list_string (Cell.text "5") = PyVal.num 5 :=
  ⟨rfl, rfl, by decide⟩

/-- C5 (amended): `create_candlestick_animation` emits exactly one frame
per cutoff `i = 10, …, N` (stepping by 1), hence no frame at all when
`N < 10`; `get_animation_frames` emits one frame per cutoff
`i = 1, …, N`. -/
theorem frame_sequencing (df : List Row) : FrameSequencingSpec df := by
  refine ⟨?_, ?_, ?_, ?_, ?_⟩
  · intro h
    unfold create_candlestick_animation
    have h0 : df.length + 1 - 10 = 0 := by omega
    rw [h0]
    rfl
  · intro h
    unfold create_candlestick_animation
    simp only [List.length_map, List.length_range']
    omega
  · intro j hj
    unfold create_candlestick_animation at hj ⊢
    have hlen : j < (List.range' 10 (df.length + 1 - 10)).length := by
      simpa using hj
    rw [List.getElem?_map, List.getElem?_eq_getElem hlen]
    simp [List.getElem_range'_1]
  · unfold get_animation_frames
    simp
  · intro j hj
    unfold get_animation_frames
    have hlen : j < (List.range' 1 df.length).length := by
      simpa using hj
    rw [List.getElem?_map, List.getElem?_eq_getElem hlen]
    simp [List.getElem_range'_1]

theorem frame_sequencing_witness :
    FrameSequencingSpec table12 ∧ 10 ≤ table12.length ∧
    (create_candlestick_animation table12).length = 3 :=
  ⟨frame_sequencing table12, by decide, by decide⟩

/-- C5 counterexample to the claim as stated: a non-empty 5-row table
produces no frame at all — the loop `range(10, len(df)+1)` is empty when
`len(df) < 10`, not clamped to start at `N`. -/
theorem frame_sequencing_counterexample :
    table5 ≠ [] ∧ table5.length = 5 ∧ create_candlestick_animation table5 = [] :=
  ⟨by decide, by decide, rfl⟩

/-- C6: the query responder always returns a string: the model reply
verbatim on success; on a raised error whose text contains "429",
exactly the fixed rate-limit advisory; on any other error, a string
embedding the raw error detail. -/
theorem responder_contract (call : String → Except String String) (csv q : String) :
    ResponderSpec call csv q := by
  refine ⟨?_, ?_, ?_⟩
  · intro t h
    unfold generate_response
    rw [h]
  · intro e h h429
    unfold generate_response
    rw [h]
    simp [h429]
  · intro e h h429
    unfold generate_response
    rw [h]
    simp [h429]

theorem responder_contract_witness :
    failing429Call (build_prompt "csv" "q")
      = Except.error "ResourceExhausted: 429 Quota exceeded for model" ∧
    mentions429 "ResourceExhausted: 429 Quota exceeded for model" = true ∧
    generate_response failing429Call "csv" "q" = rate_limit_message :=
  ⟨rfl, by decide,
    (responder_contract failing429Call "csv" "q").2.1
      "ResourceExhausted: 429 Quota exceeded for model" rfl (by decide)⟩

theorem insertByDate_sorted (r : Row) (l : List Row)
    (h : sortedByDate l = true) : sortedByDate (insertByDate r l) = true := by
  induction l with
  | nil => rfl
  | cons s rest ih =>
    simp only [insertByDate]
    by_cases hrs : r.timestamp ≤ s.timestamp
    · rw [if_pos hrs]
      simp [sortedByDate, hrs, h]
    · rw [if_neg hrs]
      cases rest with
      | nil =>
        have hsr : s.timestamp ≤ r.timestamp := by omega
        simp [insertByDate, sortedByDate, hsr]
      | cons s2 rest2 =>
        have hparts : s.timestamp ≤ s2.timestamp ∧ sortedByDate (s2 :: rest2) = true := by
          simpa [sortedByDate, Bool.and_eq_true] using h
        have ihr := ih hparts.2
        simp only [insertByDate] at ihr ⊢
        by_cases hr2 : r.timestamp ≤ s2.timestamp
        · rw [if_pos hr2] at ihr ⊢
          have hsr : s.timestamp ≤ r.timestamp := by omega
          simp [sortedByDate, hsr, hr2, hparts.2]
        · rw [if_neg hr2] at ihr ⊢
          simp [sortedByDate, hparts.1, ihr]

theorem sortByDate_sorted (l : List Row) : sortedByDate (sortByDate l) = true := by
  induction l with
  | nil => rfl
  | cons r rest ih => exact insertByDate_sorted r (sortByDate rest) ih

theorem chatbot_load_data_timestamps (raws : List RawRow) (rows : List Row)
    (h : chatbot_load_data raws = Except.ok rows) :
    rows.map (fun r => r.timestamp) = raws.map (fun r => r.timestamp) := by
  induction raws generalizing rows with
  | nil =>
    simp only [chatbot_load_data] at h
    injection h with h'
    rw [← h']
    rfl
  | cons r rest ih =>
    simp only [chatbot_load_data] at h
    cases hp : chatbotLoadRow r with
    | error e => rw [hp] at h; exact absurd h (by simp)
    | ok row =>
      rw [hp] at h
      cases hrec : chatbot_load_data rest with
      | error e => rw [hrec] at h; exact absurd h (by simp)
      | ok rows2 =>
        rw [hrec] at h
        injection h with h'
        rw [← h']
        have hts : row.timestamp = r.timestamp := by
          unfold chatbotLoadRow at hp
          cases hps : chatbotParseCell r.supportCell with
          | error e => rw [hps] at hp; exact absurd hp (by simp)
          | ok sv =>
            rw [hps] at hp
            cases hpr : chatbotParseCell r.resistanceCell with
            | error e => rw [hpr] at hp; exact absurd hp (by simp)
            | ok tv =>
              rw [hpr] at hp
              injection hp with hp'
              rw [← hp']
        simp [List.map_cons, hts, ih rows2 hrec]

/-- C7 (amended): `load_tsla_data` returns rows in ascending
(non-decreasing) timestamp order; `TSLChatbot.load_data` performs no
sort — on success its output timestamps are the input timestamps in
file order.  (The source leaves the tie order of `sort_values`
unspecified — the pandas default sort kind is quicksort — so stability
is not asserted.) -/
theorem loader_order (raws : List RawRow) : LoaderOrderSpec raws :=
  ⟨sortByDate_sorted (raws.map processRow),
    fun rows h => chatbot_load_data_timestamps raws rows h⟩

theorem loader_order_witness :
    chatbot_load_data rawPair = Except.ok chatPairRows ∧
    chatPairRows.map (fun r => r.timestamp) = rawPair.map (fun r => r.timestamp) ∧
    (load_tsla_data rawPair).map (fun r => r.timestamp) = [1, 2] :=
  ⟨rfl, (loader_order rawPair).2 chatPairRows rfl, by decide⟩

/-- C7 counterexample to the claim as stated: `TSLChatbot.load_data`
(one of the two loaders, and the one the dashboard uses) applied to a
file whose rows have descending timestamps returns them unsorted. -/
theorem loader_unsorted_counterexample :
    chatbot_load_data rawPair = Except.ok chatPairRows ∧
    sortedByDate chatPairRows = false ∧
    rawPair.map (fun r => r.timestamp) = [2, 1] :=
  ⟨rfl, by decide, by decide⟩
